import Mathlib

/-!
Shallow embedding of the contacts-management backend
(repository layer, token/auth services, and the auth/contacts API handlers),
together with proofs of the specified behavioural properties.

The database tables `users` and `contacts` are modelled as Lean lists of
records; SQLAlchemy `select ... filter` chains become `List.filter`,
`scalar_one_or_none` on a primary-key or unique-column query becomes
`List.head?` of the filtered list, and mutation of a fetched ORM row becomes
replacement of the first matching list element.  JWT tokens are modelled as a
payload record plus two booleans saying whether the signature verifies and
whether the token is expired; `jose.jwt.decode` succeeds exactly when the
signature is good and the token unexpired, and raises JWTError otherwise.
Dates are modelled as day numbers (Nat) with their usual order.
-/

namespace Spec2Proof

/-- A row of the `users` table (src/src/database/models.py, class User).
Fields not involved in any claim (avatar, role, timestamps) are omitted. -/
structure User where
  id : Nat
  username : String
  email : String
  password : String
  confirmed_email : Bool
  deriving Repr, DecidableEq

/-- A row of the `contacts` table (src/src/database/models.py, class Contact).
Timestamps are omitted; `birthday` is a day number. -/
structure Contact where
  id : Nat
  first_name : String
  last_name : String
  email : String
  phone : String
  birthday : Nat
  info : String
  user_id : Nat
  deriving Repr, DecidableEq

/-- The request DTO for contact creation/update
(src/src/schemas/contacts.py, class ContactBase). -/
structure ContactBase where
  first_name : String
  last_name : String
  email : String
  phone : String
  birthday : Nat
  info : String
  deriving Repr, DecidableEq

/-- The request DTO for signup (src/src/schemas/users.py, UserCreate). -/
structure UserCreate where
  username : String
  email : String
  password : String
  deriving Repr, DecidableEq

/-- The claims carried by a JWT, as read by `payload.get` /
`payload[...]`: subject email and scope discriminator, each possibly absent. -/
structure TokenPayload where
  sub : Option String
  scope : Option String
  deriving Repr, DecidableEq

/-- A JWT as presented to the service: its payload plus whether its signature
verifies against JWT_SECRET and whether its `exp` claim is in the past. -/
structure Token where
  payload : TokenPayload
  sigOk : Bool
  expired : Bool
  deriving Repr, DecidableEq

/-- Errors surfaced by handlers: an HTTPException with status and detail, or
an uncaught KeyError (a missing mandatory payload key hit by square-bracket
access), which the framework turns into a 500 response. -/
inductive Err where
  | http (status_code : Nat) (detail : String)
  | keyError
  deriving Repr, DecidableEq

/-- Replaces the first element satisfying `p` (the row fetched by
`scalar_one_or_none` and then mutated in place by the repository). -/
def replaceFirst {α : Type} (l : List α) (p : α → Bool) (a : α) : List α :=
  match l with
  | [] => []
  | x :: xs => if p x then a :: xs else x :: replaceFirst xs p a

/-- Removes the first element satisfying `p` (the row fetched by
`scalar_one_or_none` and then passed to `session.delete`). -/
def removeFirst {α : Type} (l : List α) (p : α → Bool) : List α :=
  match l with
  | [] => []
  | x :: xs => if p x then xs else x :: removeFirst xs p

/-- Python truthiness of an optional string query parameter: `if name:` is
False for both None and the empty string. -/
def truthy : Option String → Bool
  | none => false
  | some s => !(s == "")

namespace UserRepository

/-- Embeds `UserRepository.get_user_by_email`: `select(User).where(User.email == user_email)`
then `scalar_one_or_none` (users.email is a unique column). -/
def get_user_by_email (users : List User) (user_email : String) : Option User :=
  (users.filter fun u => u.email == user_email).head?

/-- Embeds `UserRepository.get_user_by_name`: `select(User).where(User.username == username)`
then `scalar_one_or_none` (users.username is a unique column). -/
def get_user_by_name (users : List User) (username : String) : Option User :=
  (users.filter fun u => u.username == username).head?

/-- Embeds `UserRepository.create_user`: builds a User row from the DTO (password
already hashed by the caller) and inserts it.  `newId` stands for the
autoincrement primary key. -/
def create_user (users : List User) (newId : Nat) (user : UserCreate) :
    User × List User :=
  let u : User :=
    { id := newId
      username := user.username
      email := user.email
      password := user.password
      confirmed_email := false }
  (u, users ++ [u])

/-- Embeds `UserRepository.confirmed_email`: fetches the user by email and sets
`confirmed_email = True` on the fetched row.  (When no user matches, the
source would dereference None; the API handler guards that case.) -/
def confirmed_email (users : List User) (user_email : String) : List User :=
  match get_user_by_email users user_email with
  | none => users
  | some u =>
      replaceFirst users (fun x => x.email == user_email)
        { u with confirmed_email := true }

end UserRepository

namespace ContactRepository

/-- Embeds `ContactRepository.get_contact_by_email`:
`select(Contact).filter(Contact.user_id == user.id, Contact.email == contact_email)`
then `scalar_one_or_none`. -/
def get_contact_by_email (db : List Contact) (contact_email : String)
    (user : User) : Option Contact :=
  (db.filter fun c => c.user_id == user.id && c.email == contact_email).head?

/-- The Contact row built by `Contact(**body.model_dump(exclude_unset=True), user=user)`;
`newId` stands for the autoincrement primary key. -/
def newContact (body : ContactBase) (newId : Nat) (user : User) : Contact :=
  { id := newId
    first_name := body.first_name
    last_name := body.last_name
    email := body.email
    phone := body.phone
    birthday := body.birthday
    info := body.info
    user_id := user.id }

/-- Outcome of `ContactRepository.create_contact` together with the commit:
`conflict` is the `return None` path (mapped to 409 by the API handler);
`integrityError` is the INSERT being rejected by the database because
`contacts.email` is declared `unique=True` (models.py line 78), i.e. the
unique constraint is global, not per owner. -/
inductive CreateResult where
  | conflict
  | integrityError
  | created (c : Contact)
  deriving Repr, DecidableEq

/-- Embeds `ContactRepository.create_contact`: builds the row, returns None (here
`conflict`) when this owner already has a contact with that email, and
otherwise inserts and commits; the commit raises IntegrityError when any row
of the table, whatever its owner, already carries that email, because the
column is globally unique (models.py line 78). -/
def create_contact (db : List Contact) (newId : Nat) (body : ContactBase)
    (user : User) : CreateResult × List Contact :=
  let contact := newContact body newId user
  match get_contact_by_email db contact.email user with
  | some _ => (CreateResult.conflict, db)
  | none =>
      if db.any (fun c => c.email == contact.email) then
        (CreateResult.integrityError, db)
      else
        (CreateResult.created contact, db ++ [contact])

/-- Embeds `ContactRepository.get_contacts`: filter by owner, then by each truthy
optional parameter.  The source line `stmt.offset(skip).limit(limit)`
discards its result (the modified statement is never assigned back), so
`skip` and `limit` do not affect the executed query. -/
def get_contacts (db : List Contact) (skip limit : Nat)
    (name surname email : Option String) (user : User) : List Contact :=
  let stmt := db.filter fun c => c.user_id == user.id
  let stmt := if truthy name then
      stmt.filter (fun c => some c.first_name == name) else stmt
  let stmt := if truthy surname then
      stmt.filter (fun c => some c.last_name == surname) else stmt
  let stmt := if truthy email then
      stmt.filter (fun c => some c.email == email) else stmt
  let _ := (skip, limit)
  stmt

/-- Embeds `ContactRepository.get_contact_by_id`:
`select(Contact).filter(Contact.user_id == user.id, Contact.id == contact_id)`
then `scalar_one_or_none` (contacts.id is the primary key). -/
def get_contact_by_id (db : List Contact) (contact_id : Nat) (user : User) :
    Option Contact :=
  (db.filter fun c => c.user_id == user.id && c.id == contact_id).head?

/-- The field updates performed by
`for key, value in body.model_dump().items(): setattr(contact, key, value)`. -/
def applyBody (c : Contact) (body : ContactBase) : Contact :=
  { c with
    first_name := body.first_name
    last_name := body.last_name
    email := body.email
    phone := body.phone
    birthday := body.birthday
    info := body.info }

/-- Embeds `ContactRepository.update_contact`: fetch the owner-scoped row; when
present, overwrite its fields from the body and commit. -/
def update_contact (db : List Contact) (contact_id : Nat) (body : ContactBase)
    (user : User) : Option Contact × List Contact :=
  match get_contact_by_id db contact_id user with
  | none => (none, db)
  | some c =>
      let c2 := applyBody c body
      (some c2,
        replaceFirst db (fun x => x.user_id == user.id && x.id == contact_id) c2)

/-- Embeds `ContactRepository.delete_contact`: fetch the owner-scoped row; return
None when absent, otherwise delete it and return True. -/
def delete_contact (db : List Contact) (contact_id : Nat) (user : User) :
    Option Bool × List Contact :=
  match get_contact_by_id db contact_id user with
  | none => (none, db)
  | some _ =>
      (some true,
        removeFirst db (fun x => x.user_id == user.id && x.id == contact_id))

/-- Embeds `ContactRepository.birthdays`: contacts of this owner with
`today <= birthday <= today + 7`, then `.offset(skip).limit(limit)`
(here the offset and limit ARE part of the executed statement). -/
def birthdays (db : List Contact) (today skip limit : Nat) (user : User) :
    List Contact :=
  let end_day := today + 7
  (((db.filter fun c =>
        c.user_id == user.id && decide (today ≤ c.birthday)
          && decide (c.birthday ≤ end_day)).drop skip).take limit)

end ContactRepository

namespace Auth

/-- Embeds `jose.jwt.decode(token, JWT_SECRET, ...)`: returns the payload when the
signature verifies and the token is unexpired, otherwise raises JWTError. -/
def jwtDecode (t : Token) : Except Unit TokenPayload :=
  if t.sigOk && !t.expired then Except.ok t.payload else Except.error ()

/-- Embeds `Auth.create_access_token`: payload carries the subject plus
`scope = access_token`; a freshly issued token has a valid signature and a
future expiry. -/
def create_access_token (sub : String) : Token :=
  { payload := { sub := some sub, scope := some "access_token" }
    sigOk := true
    expired := false }

/-- Embeds `Auth.create_email_token`: payload carries the subject plus
`scope = email_token`; freshly issued, hence valid signature and unexpired. -/
def create_email_token (sub : String) : Token :=
  { payload := { sub := some sub, scope := some "email_token" }
    sigOk := true
    expired := false }

/-- The 401 raised throughout `Auth.get_current_user`. -/
def credentials_exception : Err :=
  Err.http 401 "Could not validate credentials"

/-- The Redis session cache: entries are (key, pickled user record, ttl). -/
def Cache := List (String × User × Nat)

/-- Embeds `self.r.get(key)`. -/
def cache_get (r : List (String × User × Nat)) (k : String) : Option User :=
  (r.find? (fun e => e.1 == k)).map (fun e => e.2.1)

/-- Embeds `self.r.set(key, value)` followed by `self.r.expire(key, ttl)`. -/
def cache_set (r : List (String × User × Nat)) (k : String) (v : User)
    (ttl : Nat) : List (String × User × Nat) :=
  (k, v, ttl) :: r.filter (fun e => !(e.1 == k))

/-- Embeds `pickle.dumps` on a User row (the byte string it stores is modelled by
the record itself). -/
def pickle_dumps (u : User) : User := u

/-- Embeds `pickle.loads` of a cached byte string back into a User row. -/
def pickle_loads (u : User) : User := u

/-- Embeds `Auth.get_current_user`: decode the JWT (401 on JWTError), require
`scope == access_token` and a subject (401 otherwise), then resolve the user:
cache hit deserializes the cached record without touching the store; cache
miss queries the store by email, 401 when absent, otherwise populates the
cache with ttl 900 and returns the row.  The Bool in the result records
whether the store was queried. -/
def get_current_user (token : Token) (r : List (String × User × Nat))
    (users : List User) :
    Except Err (User × List (String × User × Nat) × Bool) :=
  match jwtDecode token with
  | Except.error _ => Except.error credentials_exception
  | Except.ok payload =>
    if payload.scope == some "access_token" then
      match payload.sub with
      | none => Except.error credentials_exception
      | some email =>
        match cache_get r ("user:" ++ email) with
        | some cached => Except.ok (pickle_loads cached, r, false)
        | none =>
          match UserRepository.get_user_by_email users email with
          | none => Except.error credentials_exception
          | some user =>
              Except.ok
                (user, cache_set r ("user:" ++ email) (pickle_dumps user) 900,
                  true)
    else Except.error credentials_exception

/-- Embeds `Auth.get_email_from_token`: decode the JWT — a JWTError (bad signature
or expiry) is caught and re-raised as 422 "Invalid token for email
verification"; with a decoded payload, `payload["scope"]` raises KeyError
when absent (uncaught), a scope other than `email_token` yields 401
"Invalid scope for token", and otherwise `payload["sub"]` is returned
(KeyError when absent). -/
def get_email_from_token (token : Token) : Except Err String :=
  match jwtDecode token with
  | Except.error _ =>
      Except.error (Err.http 422 "Invalid token for email verification")
  | Except.ok payload =>
    match payload.scope with
    | none => Except.error Err.keyError
    | some s =>
      if s == "email_token" then
        match payload.sub with
        | none => Except.error Err.keyError
        | some email => Except.ok email
      else Except.error (Err.http 401 "Invalid scope for token")

end Auth

namespace Api

/-- Embeds `POST /auth/signup` (src/src/api/auth.py): 409 when the email is taken,
then 409 when the username is taken, otherwise hash the password and create
the user.  `hash` stands for `auth_service.get_password_hash`; `newId` for
the autoincrement primary key.  Returns the handler outcome and the users
table afterwards. -/
def signup (users : List User) (newId : Nat) (hash : String → String)
    (user : UserCreate) : Except Err User × List User :=
  match UserRepository.get_user_by_email users user.email with
  | some _ =>
      (Except.error (Err.http 409 "User with this email already exist"), users)
  | none =>
    match UserRepository.get_user_by_name users user.username with
    | some _ =>
        (Except.error (Err.http 409 "User with this name already exist"), users)
    | none =>
        let r := UserRepository.create_user users newId
          { user with password := hash user.password }
        (Except.ok r.1, r.2)

/-- Embeds `POST /auth/login`: 401 when the user is missing or the password fails
verification, 401 "Email not confirmed" when the account is unconfirmed,
otherwise issue an access token for the account email.  `verify` stands for
`auth_service.verify_password`. -/
def login (verify : String → String → Bool) (users : List User)
    (username password : String) : Except Err Token :=
  match UserRepository.get_user_by_name users username with
  | none => Except.error (Err.http 401 "Invalid login or password")
  | some user =>
    if !(verify password user.password) then
      Except.error (Err.http 401 "Invalid login or password")
    else if !user.confirmed_email then
      Except.error (Err.http 401 "Email not confirmed")
    else
      Except.ok (Auth.create_access_token user.email)

/-- Embeds `GET /auth/confirmed_email/{token}`: decode the email token, 400 when no
account matches, 409 when the account is already confirmed, otherwise flip
the confirmed flag.  Returns the handler outcome and the users table
afterwards. -/
def confirmed_email (token : Token) (users : List User) :
    Except Err String × List User :=
  match Auth.get_email_from_token token with
  | Except.error e => (Except.error e, users)
  | Except.ok email =>
    match UserRepository.get_user_by_email users email with
    | none => (Except.error (Err.http 400 "Verification error"), users)
    | some user =>
      if user.confirmed_email then
        (Except.error (Err.http 409 "Your email is already confirmed"), users)
      else
        (Except.ok "Email confirmed", UserRepository.confirmed_email users email)

/-- The response object a redirect would carry. -/
structure RedirectResponse where
  url : String
  deriving Repr, DecidableEq

/-- Embeds `GET /auth/reset_password/{token}` (src/src/api/auth.py lines 217 to 229):
the body constructs `RedirectResponse(url=f"/change_password/{token}")` but
contains no return statement, so the constructed response is discarded and
the handler returns None for every token. -/
def reset_password (token : String) : Option RedirectResponse :=
  let _r : RedirectResponse := { url := "/change_password/" ++ token }
  none

end Api

end Spec2Proof

/-! ## Helper lemmas -/

namespace Spec2Proof

theorem head?_mem {α : Type} {l : List α} {a : α} (h : l.head? = some a) :
    a ∈ l := by
  cases l with
  | nil => simp at h
  | cons x xs =>
      simp only [List.head?_cons, Option.some.injEq] at h
      exact h ▸ List.mem_cons_self x xs

theorem filter_replaceFirst {α : Type} (l : List α) (p f : α → Bool) (a : α)
    (hp : ∀ x, p x = true → f x = false) (ha : f a = false) :
    (replaceFirst l p a).filter f = l.filter f := by
  induction l with
  | nil => rfl
  | cons x xs ih =>
      by_cases hx : p x = true
      · simp [replaceFirst, hx, List.filter_cons, hp x hx, ha]
      · simp [replaceFirst, hx, List.filter_cons, ih]

theorem filter_removeFirst {α : Type} (l : List α) (p f : α → Bool)
    (hp : ∀ x, p x = true → f x = false) :
    (removeFirst l p).filter f = l.filter f := by
  induction l with
  | nil => rfl
  | cons x xs ih =>
      by_cases hx : p x = true
      · simp [removeFirst, hx, List.filter_cons, hp x hx]
      · simp [removeFirst, hx, List.filter_cons, ih]

theorem mem_get_contacts_iff (db : List Contact) (skip limit : Nat)
    (nameq surnameq emailq : Option String) (user : User) (c : Contact) :
    c ∈ ContactRepository.get_contacts db skip limit nameq surnameq emailq user
      ↔ (c ∈ db ∧ c.user_id = user.id ∧
          (truthy nameq = true → some c.first_name = nameq) ∧
          (truthy surnameq = true → some c.last_name = surnameq) ∧
          (truthy emailq = true → some c.email = emailq)) := by
  by_cases h1 : truthy nameq = true <;> by_cases h2 : truthy surnameq = true <;>
    by_cases h3 : truthy emailq = true <;>
      simp [ContactRepository.get_contacts, h1, h2, h3, List.mem_filter,
        and_assoc] <;> tauto

theorem mem_birthdays {db : List Contact} {today skip limit : Nat}
    {user : User} {c : Contact}
    (h : c ∈ ContactRepository.birthdays db today skip limit user) :
    c.user_id = user.id ∧ today ≤ c.birthday ∧ c.birthday ≤ today + 7 := by
  unfold ContactRepository.birthdays at h
  have h2 := List.drop_subset _ _ (List.take_subset _ _ h)
  rw [List.mem_filter] at h2
  have h3 := h2.2
  simp only [Bool.and_eq_true, beq_iff_eq, decide_eq_true_eq] at h3
  exact ⟨h3.1.1, h3.1.2, h3.2⟩

theorem get_user_by_email_none {users : List User} {e : String}
    (h : UserRepository.get_user_by_email users e = none) :
    ∀ u ∈ users, u.email ≠ e := by
  intro u hu
  unfold UserRepository.get_user_by_email at h
  rw [List.head?_eq_none_iff, List.filter_eq_nil_iff] at h
  have := h u hu
  simpa using this

theorem get_user_by_name_none {users : List User} {n : String}
    (h : UserRepository.get_user_by_name users n = none) :
    ∀ u ∈ users, u.username ≠ n := by
  intro u hu
  unfold UserRepository.get_user_by_name at h
  rw [List.head?_eq_none_iff, List.filter_eq_nil_iff] at h
  have := h u hu
  simpa using this

theorem get_contact_by_email_none_of_fresh {db : List Contact} {e : String}
    {user : User} (h : db.any (fun c => c.email == e) = false) :
    ContactRepository.get_contact_by_email db e user = none := by
  unfold ContactRepository.get_contact_by_email
  rw [List.head?_eq_none_iff, List.filter_eq_nil_iff]
  intro c hc
  rw [List.any_eq_false] at h
  have := h c hc
  simp only [Bool.and_eq_true, beq_iff_eq, not_and]
  intro _
  simpa using this

end Spec2Proof

/-! ## Claim theorems -/

namespace Spec2Proof

/-- Claim C6: for every login request whose username and password are correct
but whose account has confirmed_email = false, the response is 401 with
detail "Email not confirmed" and no access token is issued. -/
theorem C6_login_unconfirmed_401 (verify : String → String → Bool)
    (users : List User) (username password : String) (user : User)
    (h1 : UserRepository.get_user_by_name users username = some user)
    (h2 : verify password user.password = true)
    (h3 : user.confirmed_email = false) :
    Api.login verify users username password =
      Except.error (Err.http 401 "Email not confirmed") := by
  simp [Api.login, h1, h2, h3]

theorem C6_login_unconfirmed_401_witness :
    Api.login (fun p h => p == h) [⟨1, "bob", "bob@x", "pw", false⟩]
        "bob" "pw" = Except.error (Err.http 401 "Email not confirmed") :=
  C6_login_unconfirmed_401 (fun p h => p == h)
    [⟨1, "bob", "bob@x", "pw", false⟩] "bob" "pw"
    ⟨1, "bob", "bob@x", "pw", false⟩ rfl rfl rfl

/-- Claim C5: for every account whose confirmed-email flag is already true, a
confirmation request with a valid email-scoped token for that account yields
409 and leaves the user table (hence the confirmed flag and the rest of the
record) unchanged; so the unconfirmed-to-confirmed transition happens at most
once per account. -/
theorem C5_confirm_already_confirmed_409 (token : Token) (users : List User)
    (user : User) (email : String)
    (h1 : Auth.get_email_from_token token = Except.ok email)
    (h2 : UserRepository.get_user_by_email users email = some user)
    (h3 : user.confirmed_email = true) :
    Api.confirmed_email token users =
      (Except.error (Err.http 409 "Your email is already confirmed"), users) := by
  simp [Api.confirmed_email, h1, h2, h3]

theorem C5_confirm_already_confirmed_409_witness :
    Api.confirmed_email (Auth.create_email_token "ann@x")
        [⟨1, "ann", "ann@x", "pw", true⟩] =
      (Except.error (Err.http 409 "Your email is already confirmed"),
        [⟨1, "ann", "ann@x", "pw", true⟩]) :=
  C5_confirm_already_confirmed_409 (Auth.create_email_token "ann@x")
    [⟨1, "ann", "ann@x", "pw", true⟩] ⟨1, "ann", "ann@x", "pw", true⟩
    "ann@x" rfl rfl rfl

/-- Claim C7: for every signup request whose email or username equals that of
an existing user, the response is 409 and the users table is unchanged (no
new row, existing rows untouched). -/
theorem C7_signup_duplicate_conflict (users : List User) (newId : Nat)
    (hash : String → String) (body : UserCreate)
    (h : ∃ u ∈ users, u.email = body.email ∨ u.username = body.username) :
    (∃ d, (Api.signup users newId hash body).1 =
        Except.error (Err.http 409 d)) ∧
      (Api.signup users newId hash body).2 = users := by
  obtain ⟨u, hu, hor⟩ := h
  cases hfe : UserRepository.get_user_by_email users body.email with
  | some v =>
      refine ⟨⟨"User with this email already exist", ?_⟩, ?_⟩ <;>
        simp [Api.signup, hfe]
  | none =>
      cases hfn : UserRepository.get_user_by_name users body.username with
      | some v =>
          refine ⟨⟨"User with this name already exist", ?_⟩, ?_⟩ <;>
            simp [Api.signup, hfe, hfn]
      | none =>
          exfalso
          cases hor with
          | inl he => exact get_user_by_email_none hfe u hu he
          | inr hn => exact get_user_by_name_none hfn u hu hn

theorem C7_signup_duplicate_conflict_witness :
    (∃ d, (Api.signup [⟨1, "bob", "bob@x", "pw", true⟩] 2 (fun s => s)
        ⟨"bob", "new@x", "secret"⟩).1 = Except.error (Err.http 409 d)) ∧
      (Api.signup [⟨1, "bob", "bob@x", "pw", true⟩] 2 (fun s => s)
        ⟨"bob", "new@x", "secret"⟩).2 = [⟨1, "bob", "bob@x", "pw", true⟩] :=
  C7_signup_duplicate_conflict [⟨1, "bob", "bob@x", "pw", true⟩] 2
    (fun s => s) ⟨"bob", "new@x", "secret"⟩
    ⟨⟨1, "bob", "bob@x", "pw", true⟩, List.mem_singleton.mpr rfl, Or.inr rfl⟩

/-- Claim C9: for every call to the contact-list query, the skip and limit
parameters have no effect on the result, and the full set of the requesting
user's contacts matching the truthy name/surname/email filters is returned. -/
theorem C9_skip_limit_without_effect (db : List Contact)
    (skip limit skip2 limit2 : Nat) (nameq surnameq emailq : Option String)
    (user : User) :
    ContactRepository.get_contacts db skip limit nameq surnameq emailq user =
        ContactRepository.get_contacts db skip2 limit2 nameq surnameq emailq
          user ∧
      ∀ c, c ∈ ContactRepository.get_contacts db skip limit nameq surnameq
          emailq user ↔
        (c ∈ db ∧ c.user_id = user.id ∧
          (truthy nameq = true → some c.first_name = nameq) ∧
          (truthy surnameq = true → some c.last_name = surnameq) ∧
          (truthy emailq = true → some c.email = emailq)) :=
  ⟨rfl, fun c => mem_get_contacts_iff db skip limit nameq surnameq emailq user c⟩

theorem C9_skip_limit_without_effect_witness :
    (⟨1, "aa", "bb", "e@x", "1", 0, "i", 5⟩ : Contact) ∈
      ContactRepository.get_contacts [⟨1, "aa", "bb", "e@x", "1", 0, "i", 5⟩]
        3 1 none none none ⟨5, "u", "u@x", "p", true⟩ :=
  ((C9_skip_limit_without_effect [⟨1, "aa", "bb", "e@x", "1", 0, "i", 5⟩] 3 1
      0 0 none none none ⟨5, "u", "u@x", "p", true⟩).2
    ⟨1, "aa", "bb", "e@x", "1", 0, "i", 5⟩).mpr
    ⟨List.mem_singleton.mpr rfl, rfl, fun ht => absurd ht (by decide),
      fun ht => absurd ht (by decide), fun ht => absurd ht (by decide)⟩

/-- Claim C10: for every token value, the GET /auth/reset_password/(token)
handler constructs a redirect response but never returns it, so its return
value is None (an empty 200 response) for all inputs. -/
theorem C10_reset_password_returns_none (token : String) :
    Api.reset_password token = none := rfl

end Spec2Proof

namespace Spec2Proof

/-- Claim C4: for every user and every skip/limit pair, the birthday query
returns only contacts owned by that user whose birthday lies within the next
7 days inclusive of today, and the result is the owner-filtered window list
dropped by skip and truncated to at most limit elements. -/
theorem C4_birthdays_window (db : List Contact) (today skip limit : Nat)
    (user : User) (c : Contact)
    (hc : c ∈ ContactRepository.birthdays db today skip limit user) :
    c.user_id = user.id ∧ today ≤ c.birthday ∧ c.birthday ≤ today + 7 ∧
      (ContactRepository.birthdays db today skip limit user).length ≤ limit ∧
      ContactRepository.birthdays db today skip limit user =
        ((db.filter fun x => x.user_id == user.id &&
            decide (today ≤ x.birthday) &&
            decide (x.birthday ≤ today + 7)).drop skip).take limit := by
  obtain ⟨h1, h2, h3⟩ := mem_birthdays hc
  refine ⟨h1, h2, h3, ?_, rfl⟩
  unfold ContactRepository.birthdays
  exact List.length_take_le _ _

theorem C4_birthdays_window_witness :
    (⟨1, "aa", "bb", "e@x", "1", 3, "i", 5⟩ : Contact).user_id =
      (⟨5, "u", "u@x", "p", true⟩ : User).id :=
  (C4_birthdays_window [⟨1, "aa", "bb", "e@x", "1", 3, "i", 5⟩] 0 0 10
      ⟨5, "u", "u@x", "p", true⟩ ⟨1, "aa", "bb", "e@x", "1", 3, "i", 5⟩
      (by decide)).1

/-- Claim C8: identity resolution follows the cache algorithm: with a valid
access token carrying a subject, a cache hit deserializes the cached record
and returns it without querying the store and without touching the cache; a
cache miss queries the store by the subject email, stores the serialized
record with ttl 900, and returns it; when the store lookup also fails the
request is rejected with the 401 credentials exception.  The Bool in the
result records whether the store was queried. -/
theorem C8_identity_resolution_cache (token : Token)
    (r : List (String × User × Nat)) (users : List User) (p : TokenPayload)
    (email : String)
    (hd : Auth.jwtDecode token = Except.ok p)
    (hs : p.scope = some "access_token")
    (hb : p.sub = some email) :
    (∀ u, Auth.cache_get r ("user:" ++ email) = some u →
        Auth.get_current_user token r users =
          Except.ok (Auth.pickle_loads u, r, false)) ∧
      (Auth.cache_get r ("user:" ++ email) = none →
        ∀ u, UserRepository.get_user_by_email users email = some u →
          Auth.get_current_user token r users =
            Except.ok (u,
              Auth.cache_set r ("user:" ++ email) (Auth.pickle_dumps u) 900,
              true)) ∧
      (Auth.cache_get r ("user:" ++ email) = none →
        UserRepository.get_user_by_email users email = none →
          Auth.get_current_user token r users =
            Except.error Auth.credentials_exception) := by
  refine ⟨?_, ?_, ?_⟩ <;> intros <;>
    simp_all [Auth.get_current_user, hd, hs, hb]

theorem C8_identity_resolution_cache_witness :
    Auth.get_current_user (Auth.create_access_token "ann@x") []
        [⟨1, "ann", "ann@x", "pw", true⟩] =
      Except.ok (⟨1, "ann", "ann@x", "pw", true⟩,
        Auth.cache_set [] ("user:" ++ "ann@x")
          (Auth.pickle_dumps ⟨1, "ann", "ann@x", "pw", true⟩) 900, true) :=
  (C8_identity_resolution_cache (Auth.create_access_token "ann@x") []
      [⟨1, "ann", "ann@x", "pw", true⟩]
      ⟨some "ann@x", some "access_token"⟩ "ann@x" rfl rfl rfl).2.1 rfl
    ⟨1, "ann", "ann@x", "pw", true⟩ rfl

/-- Claim C1: every contact operation performed on behalf of user A is
restricted to contacts owned by A: the list, by-id, and birthday queries
return only A-owned rows, update and create only ever hand back A-owned
rows, and the sublist of rows owned by any other user is left unchanged by
update, delete, and create. -/
theorem C1_owner_isolation (db : List Contact) (A : User) (cid newId : Nat)
    (body : ContactBase) (nameq surnameq emailq : Option String)
    (skip limit today : Nat) :
    (∀ c ∈ ContactRepository.get_contacts db skip limit nameq surnameq emailq
        A, c.user_id = A.id) ∧
      (∀ c, ContactRepository.get_contact_by_id db cid A = some c →
        c.user_id = A.id) ∧
      (∀ c ∈ ContactRepository.birthdays db today skip limit A,
        c.user_id = A.id) ∧
      (∀ c, (ContactRepository.update_contact db cid body A).1 = some c →
        c.user_id = A.id) ∧
      (∀ c, (ContactRepository.create_contact db newId body A).1 =
          ContactRepository.CreateResult.created c → c.user_id = A.id) ∧
      ((ContactRepository.update_contact db cid body A).2.filter
          (fun c => !(c.user_id == A.id)) =
        db.filter (fun c => !(c.user_id == A.id))) ∧
      ((ContactRepository.delete_contact db cid A).2.filter
          (fun c => !(c.user_id == A.id)) =
        db.filter (fun c => !(c.user_id == A.id))) ∧
      ((ContactRepository.create_contact db newId body A).2.filter
          (fun c => !(c.user_id == A.id)) =
        db.filter (fun c => !(c.user_id == A.id))) := by
  have hbyid : ∀ c, ContactRepository.get_contact_by_id db cid A = some c →
      c.user_id = A.id := by
    intro c h
    have hm := head?_mem h
    rw [List.mem_filter] at hm
    have h2 := hm.2
    simp only [Bool.and_eq_true, beq_iff_eq] at h2
    exact h2.1
  have hcc : ContactRepository.create_contact db newId body A =
        (ContactRepository.CreateResult.conflict, db) ∨
      ContactRepository.create_contact db newId body A =
        (ContactRepository.CreateResult.integrityError, db) ∨
      ContactRepository.create_contact db newId body A =
        (ContactRepository.CreateResult.created
            (ContactRepository.newContact body newId A),
          db ++ [ContactRepository.newContact body newId A]) := by
    cases hg : ContactRepository.get_contact_by_email db body.email A with
    | some c0 =>
        simp [ContactRepository.create_contact, ContactRepository.newContact,
          hg]
    | none =>
        by_cases ha : db.any (fun c => c.email == body.email) = true
        · simp [ContactRepository.create_contact,
            ContactRepository.newContact, hg, ha]
        · simp [ContactRepository.create_contact,
            ContactRepository.newContact, hg, ha]
  refine ⟨?_, hbyid, ?_, ?_, ?_, ?_, ?_, ?_⟩
  · intro c hc
    exact ((mem_get_contacts_iff db skip limit nameq surnameq emailq A c).mp
      hc).2.1
  · intro c hc
    exact (mem_birthdays hc).1
  · intro c h
    unfold ContactRepository.update_contact at h
    cases h0 : ContactRepository.get_contact_by_id db cid A with
    | none => rw [h0] at h; exact absurd h (by simp)
    | some c0 =>
        rw [h0] at h
        have h2 : some (ContactRepository.applyBody c0 body) = some c := h
        rw [Option.some.injEq] at h2
        rw [← h2]
        show c0.user_id = A.id
        exact hbyid c0 h0
  · intro c h
    rcases hcc with hcase | hcase | hcase <;> rw [hcase] at h
    · exact absurd h (by simp)
    · exact absurd h (by simp)
    · have h2 : ContactRepository.CreateResult.created
          (ContactRepository.newContact body newId A) =
            ContactRepository.CreateResult.created c := h
      rw [ContactRepository.CreateResult.created.injEq] at h2
      rw [← h2]
      show A.id = A.id
      rfl
  · unfold ContactRepository.update_contact
    cases h0 : ContactRepository.get_contact_by_id db cid A with
    | none => simp
    | some c0 =>
        simp only
        apply filter_replaceFirst
        · intro x hx
          simp only [Bool.and_eq_true, beq_iff_eq] at hx
          simp [hx.1]
        · have hc0 : c0.user_id = A.id := hbyid c0 h0
          show (!(ContactRepository.applyBody c0 body).user_id == A.id) = false
          simp [ContactRepository.applyBody, hc0]
  · unfold ContactRepository.delete_contact
    cases h0 : ContactRepository.get_contact_by_id db cid A with
    | none => simp
    | some c0 =>
        simp only
        apply filter_removeFirst
        intro x hx
        simp only [Bool.and_eq_true, beq_iff_eq] at hx
        simp [hx.1]
  · rcases hcc with hcase | hcase | hcase <;> rw [hcase]
    rw [List.filter_append]
    have hnc : (!(ContactRepository.newContact body newId A).user_id ==
        A.id) = false := by
      simp [ContactRepository.newContact]
    simp [List.filter_cons, hnc]

theorem C1_owner_isolation_witness :
    (⟨1, "aa", "bb", "e@x", "1", 0, "i", 5⟩ : Contact).user_id =
      (⟨5, "u", "u@x", "p", true⟩ : User).id :=
  (C1_owner_isolation [⟨1, "aa", "bb", "e@x", "1", 0, "i", 5⟩]
      ⟨5, "u", "u@x", "p", true⟩ 1 2 ⟨"x", "y", "z@x", "1", 0, "i"⟩
      none none none 0 10 0).2.1
    ⟨1, "aa", "bb", "e@x", "1", 0, "i", 5⟩ rfl

end Spec2Proof

namespace Spec2Proof

/-- Claim C2, counterexample: a token whose signature does not verify,
presented to the email-from-token decoder, is rejected with status 422
(the JWTError handler in get_email_from_token), not with a 401
authentication error as the claim states for every signature mismatch. -/
theorem C2_counterexample :
    Auth.get_email_from_token
        ⟨⟨some "a@b", some "email_token"⟩, false, false⟩ =
      Except.error (Err.http 422 "Invalid token for email verification") ∧
    (422 : Nat) ≠ 401 :=
  ⟨rfl, by decide⟩

/-- Claim C2 as amended: every token whose signature, expiry, or scope does
not match the expected use is rejected; a cross-scope token gets 401 from
both resolvers (an email-scoped token at the current-user resolver, an
access-scoped token at the email decoder), and a bad-signature or expired
token gets 401 from the current-user resolver but 422 from the email
decoder. -/
theorem C2_token_scope_validation (t : Token) (e s : String)
    (r : List (String × User × Nat)) (users : List User) :
    (Auth.get_current_user (Auth.create_email_token e) r users =
        Except.error Auth.credentials_exception) ∧
      (Auth.get_email_from_token (Auth.create_access_token e) =
        Except.error (Err.http 401 "Invalid scope for token")) ∧
      (t.sigOk = false ∨ t.expired = true →
        Auth.get_current_user t r users =
            Except.error Auth.credentials_exception ∧
          Auth.get_email_from_token t =
            Except.error
              (Err.http 422 "Invalid token for email verification")) ∧
      (t.sigOk = true → t.expired = false → t.payload.scope = some s →
        (s ≠ "access_token" →
          Auth.get_current_user t r users =
            Except.error Auth.credentials_exception) ∧
        (s ≠ "email_token" →
          Auth.get_email_from_token t =
            Except.error (Err.http 401 "Invalid scope for token"))) := by
  refine ⟨rfl, rfl, ?_, ?_⟩
  · intro h
    have hb : (t.sigOk && !t.expired) = false := by
      rcases h with h | h <;> simp [h]
    constructor <;>
      simp [Auth.get_current_user, Auth.get_email_from_token, Auth.jwtDecode,
        hb]
  · intro h1 h2 h3
    constructor
    · intro hs
      have hbe : (t.payload.scope == some "access_token") = false := by
        rw [h3]; simp [hs]
      simp [Auth.get_current_user, Auth.jwtDecode, h1, h2, hbe]
    · intro hs
      simp [Auth.get_email_from_token, Auth.jwtDecode, h1, h2, h3, hs]

theorem C2_token_scope_validation_witness :
    Auth.get_current_user ⟨⟨some "a@b", some "access_token"⟩, false, false⟩
        [] [] = Except.error Auth.credentials_exception ∧
      Auth.get_email_from_token
          ⟨⟨some "a@b", some "access_token"⟩, false, false⟩ =
        Except.error (Err.http 422 "Invalid token for email verification") :=
  (C2_token_scope_validation
      ⟨⟨some "a@b", some "access_token"⟩, false, false⟩ "a@b" "x" []
      []).2.2.1 (Or.inl rfl)

/-- Claim C3, counterexample: creating a contact whose email equals that of a
contact owned by a DIFFERENT user does not succeed: the per-owner repository
check passes, but the INSERT violates the global unique constraint on
contacts.email (models.py line 78) and ends in an integrity error with no
row created. -/
theorem C3_counterexample :
    ContactRepository.create_contact
        [⟨1, "aa", "bb", "dup@x", "1", 0, "i", 1⟩] 2
        ⟨"cc", "dd", "dup@x", "2", 0, "j"⟩ ⟨2, "bob", "bob@x", "p", true⟩ =
      (ContactRepository.CreateResult.integrityError,
        [⟨1, "aa", "bb", "dup@x", "1", 0, "i", 1⟩]) := rfl

/-- Claim C3 as amended: the application-level duplicate check is per owner:
creating a contact with an email already used by one of the same user's
contacts returns a conflict and creates no row; with the same email string
on another user's contact the repository check passes but the commit hits
the global unique constraint on the email column, again creating no row;
only a globally fresh email creates a row. -/
theorem C3_email_uniqueness (db : List Contact) (newId : Nat)
    (body : ContactBase) (user : User) :
    ((∃ c, ContactRepository.get_contact_by_email db body.email user =
        some c) →
      ContactRepository.create_contact db newId body user =
        (ContactRepository.CreateResult.conflict, db)) ∧
      (ContactRepository.get_contact_by_email db body.email user = none →
        db.any (fun c => c.email == body.email) = true →
        ContactRepository.create_contact db newId body user =
          (ContactRepository.CreateResult.integrityError, db)) ∧
      (db.any (fun c => c.email == body.email) = false →
        ContactRepository.create_contact db newId body user =
          (ContactRepository.CreateResult.created
              (ContactRepository.newContact body newId user),
            db ++ [ContactRepository.newContact body newId user])) := by
  refine ⟨?_, ?_, ?_⟩
  · rintro ⟨c, hc⟩
    simp [ContactRepository.create_contact, ContactRepository.newContact, hc]
  · intro h1 h2
    simp [ContactRepository.create_contact, ContactRepository.newContact, h1,
      h2]
  · intro h
    have h1 := @get_contact_by_email_none_of_fresh db body.email user h
    simp [ContactRepository.create_contact, ContactRepository.newContact, h1,
      h]

theorem C3_email_uniqueness_witness :
    ContactRepository.create_contact
        [⟨1, "aa", "bb", "e@x", "1", 0, "i", 7⟩] 2
        ⟨"cc", "dd", "e@x", "2", 0, "j"⟩ ⟨7, "ann", "ann@x", "p", true⟩ =
      (ContactRepository.CreateResult.conflict,
        [⟨1, "aa", "bb", "e@x", "1", 0, "i", 7⟩]) :=
  (C3_email_uniqueness [⟨1, "aa", "bb", "e@x", "1", 0, "i", 7⟩] 2
      ⟨"cc", "dd", "e@x", "2", 0, "j"⟩ ⟨7, "ann", "ann@x", "p", true⟩).1
    ⟨⟨1, "aa", "bb", "e@x", "1", 0, "i", 7⟩, rfl⟩

end Spec2Proof
